import Mathlib

/-!
Verification of the swapchain lifecycle and frame-presentation loop of the
vulkan-tutorial repository (src/swapchain.rs and src/main.rs), as a shallow
embedding in Lean 4.

Machine integers (`u32`) are modelled as `Nat`; the only arithmetic the
embedded code performs on them is `min_image_count + 1`, which is reduced
modulo `2 ^ 32` where it occurs.  Rust panics (`unwrap`, `expect`, `panic!`,
out-of-bounds indexing) are modelled by `Option`/explicit panic constructors.
-/

set_option autoImplicit false

namespace VulkanTutorial

/-- Vulkano pixel formats, restricted to the constructor the program names
plus a catch-all for every other format code. -/
inductive Format where
  | B8G8R8A8Unorm
  | other (code : Nat)
deriving DecidableEq, Repr

/-- Vulkano color spaces, restricted to the constructor the program names
plus a catch-all. -/
inductive ColorSpace where
  | SrgbNonLinear
  | other (code : Nat)
deriving DecidableEq, Repr

/-- Vulkano present modes (the program only ever produces the first three). -/
inductive PresentMode where
  | Mailbox
  | Immediate
  | Fifo
  | Relaxed
deriving DecidableEq, Repr

/-- Embedding of `vulkano::swapchain::SupportedPresentModes`: one flag per present mode. -/
structure SupportedPresentModes where
  immediate : Bool
  mailbox : Bool
  fifo : Bool
  relaxed : Bool
deriving DecidableEq, Repr

/-- Embedding of `vulkano::sync::SharingMode`, as built by `create_swap_chain` from the
two queues (exclusive when the queue ids coincide, concurrent otherwise). -/
inductive SharingMode where
  | exclusive (queue_id : Nat)
  | concurrent (queue_ids : List Nat)
deriving DecidableEq, Repr

/-- Embedding of `vulkano::swapchain::Capabilities`, restricted to the fields
`create_swap_chain` reads.  Extents (`[u32; 2]`) are pairs of `Nat`. -/
structure Capabilities where
  supported_formats : List (Format × ColorSpace)
  present_modes : SupportedPresentModes
  min_image_count : Nat
  max_image_count : Option Nat
  current_extent : Option (Nat × Nat)
  min_image_extent : Nat × Nat
  max_image_extent : Nat × Nat
  current_transform : Nat
deriving DecidableEq, Repr

/-- Embedding of `swapchain.rs::choose_swap_surface_format`.  The source scans
`available_formats` for the pair `(B8G8R8A8Unorm, SrgbNonLinear)` and falls
back to `available_formats[0]`; the fallback indexing panics on an empty
slice, modelled here by `none`. -/
def choose_swap_surface_format (available_formats : List (Format × ColorSpace)) :
    Option (Format × ColorSpace) :=
  (available_formats.find? fun p =>
      decide (p.1 = Format.B8G8R8A8Unorm) && decide (p.2 = ColorSpace.SrgbNonLinear)).orElse
    fun _ => available_formats.head?

/-- Embedding of `swapchain.rs::choose_swap_present_mode`: mailbox, else immediate,
else FIFO. -/
def choose_swap_present_mode (available_present_modes : SupportedPresentModes) :
    PresentMode :=
  if available_present_modes.mailbox then PresentMode.Mailbox
  else if available_present_modes.immediate then PresentMode.Immediate
  else PresentMode.Fifo

/-- Embedding of `swapchain.rs::choose_swap_extent`: the surface's current extent when
defined, otherwise the desired size clamped per component by
`min_image_extent[i].max(max_image_extent[i].min(desired[i]))`. -/
def choose_swap_extent (capabilities : Capabilities)
    (desired_width desired_height : Nat) : Nat × Nat :=
  match capabilities.current_extent with
  | some current_extent => current_extent
  | none =>
      (Nat.max capabilities.min_image_extent.1
        (Nat.min capabilities.max_image_extent.1 desired_width),
       Nat.max capabilities.min_image_extent.2
        (Nat.min capabilities.max_image_extent.2 desired_height))

/-- The parameters a built swapchain carries (the fields
`create_swap_chain` sets on the `SwapchainBuilder`). -/
structure SwapchainParams where
  num_images : Nat
  sharing : SharingMode
  dimensions : Nat × Nat
  present_mode : PresentMode
  format : Format
  color_space : ColorSpace
  transform : Nat
deriving DecidableEq, Repr

/-- Embedding of `swapchain.rs::create_swap_chain`.  With an `old_swap_chain`, the source
calls `Swapchain::recreate()` (vulkano 0.24), whose builder starts from the
old swapchain's own parameters and is built unchanged — the selection
helpers are not consulted on that path (the source comments that this
"breaks lesson 16").  Without one, the parameters are chosen from the
current surface capabilities.  `build_ok` is whether the driver accepts the
final `.build()` call; `none` models the `expect` panics (no supported
format / failed build). -/
def create_swap_chain (capabilities : Capabilities)
    (graphics_queue_id presentation_queue_id : Nat)
    (old_swap_chain : Option SwapchainParams) (build_ok : Bool) :
    Option SwapchainParams :=
  match old_swap_chain with
  | some swap_chain => if build_ok then some swap_chain else none
  | none =>
    match choose_swap_surface_format capabilities.supported_formats with
    | none => none
    | some (surface_format, color_space) =>
      let present_mode := choose_swap_present_mode capabilities.present_modes
      let extent := choose_swap_extent capabilities 1024 768
      let image_count := (capabilities.min_image_count + 1) % 2 ^ 32
      let image_count :=
        match capabilities.max_image_count with
        | some max_image_count =>
            if image_count > max_image_count then max_image_count else image_count
        | none => image_count
      let sharing :=
        if graphics_queue_id = presentation_queue_id then
          SharingMode.exclusive graphics_queue_id
        else
          SharingMode.concurrent [graphics_queue_id, presentation_queue_id]
      if build_ok then
        some { num_images := image_count
               sharing := sharing
               dimensions := extent
               present_mode := present_mode
               format := surface_format
               color_space := color_space
               transform := capabilities.current_transform }
      else
        none

/-- A GPU completion future (`Box<dyn GpuFuture>`): either the
already-signaled `sync::now(device)` placeholder or the
fence-and-flush future of the frame that presented `image_index`. -/
inductive GpuFut where
  | now
  | chained (image_index : Nat)
deriving DecidableEq, Repr

/-- The fields of `main.rs::GraphicsApplication` the presentation loop
reads or writes.  Swapchain images are identified by `Nat` ids handed out
by the driver; a framebuffer is recorded by the id of the image whose view
it wraps, and a command buffer by the id of the image whose framebuffer
its render pass targets. -/
structure AppState where
  swap_chain : SwapchainParams
  swap_chain_images : List Nat
  framebuffers : List Nat
  command_buffers : List Nat
  previous_frame_end : Option GpuFut
  recreate_swap_chain : Bool
deriving DecidableEq, Repr

/-- Embedding of `main.rs::GraphicsApplication::create_framebuffers`: one framebuffer
per swapchain image, each wrapping that image's view. -/
def create_framebuffers (swap_chain_images : List Nat) : List Nat :=
  swap_chain_images.map fun image => image

/-- The command-buffer construction inlined in
`main.rs::GraphicsApplication::new`: one primary command buffer per
framebuffer, recording a render pass into that framebuffer. -/
def build_command_buffers (framebuffers : List Nat) : List Nat :=
  framebuffers.map fun framebuffer => framebuffer

/-- Embedding of `main.rs::GraphicsApplication::create_command_buffers`.  Its body in
the source is empty: it mutates nothing. -/
def GraphicsApplication.create_command_buffers (s : AppState) : AppState :=
  s

/-- Embedding of `main.rs::GraphicsApplication::create_sync_objects`:
`sync::now(device)`. -/
def create_sync_objects : GpuFut :=
  GpuFut.now

/-- Embedding of `main.rs::GraphicsApplication::new`, restricted to the loop state:
builds the first swapchain (no old handle), framebuffers and command
buffers from its images, seeds `previous_frame_end` with the
already-signaled placeholder and clears the recreate flag.  `driver_images`
are the image ids the driver returns for the built swapchain; `none`
models the constructor's `expect` panics. -/
def GraphicsApplication.new (capabilities : Capabilities)
    (graphics_queue_id presentation_queue_id : Nat)
    (driver_images : List Nat) (build_ok : Bool) : Option AppState :=
  match create_swap_chain capabilities graphics_queue_id presentation_queue_id none
      build_ok with
  | none => none
  | some swap_chain =>
      let framebuffers := create_framebuffers driver_images
      some { swap_chain := swap_chain
             swap_chain_images := driver_images
             framebuffers := framebuffers
             command_buffers := build_command_buffers framebuffers
             previous_frame_end := some create_sync_objects
             recreate_swap_chain := false }

/-- Embedding of `main.rs::GraphicsApplication::recreate_swap_chain`.  When the flag is
set: rebuild the swapchain passing the current one as `old_swap_chain`,
replace the image list with the driver's new images, rebuild the
framebuffers from them, call `create_command_buffers` (whose body is
empty), and clear the flag.  Otherwise do nothing.  `none` models the
`expect` panic at swapchain-build time. -/
def GraphicsApplication.recreate_swap_chain (s : AppState)
    (capabilities : Capabilities)
    (graphics_queue_id presentation_queue_id : Nat)
    (driver_images : List Nat) (build_ok : Bool) : Option AppState :=
  if s.recreate_swap_chain then
    match create_swap_chain capabilities graphics_queue_id presentation_queue_id
        (some s.swap_chain) build_ok with
    | none => none
    | some swap_chain =>
        let s := { s with
                   swap_chain := swap_chain
                   swap_chain_images := driver_images
                   framebuffers := create_framebuffers driver_images }
        let s := GraphicsApplication.create_command_buffers s
        some { s with recreate_swap_chain := false }
  else
    some s

/-- Outcome of `acquire_next_image`: a new image index (with its ready
future), the distinguished `AcquireError::OutOfDate`, or any other
`AcquireError`. -/
inductive AcquireOutcome where
  | success (image_index : Nat)
  | outOfDate
  | failure
deriving DecidableEq, Repr

/-- Outcome of `then_execute` on the graphics queue (an `Err` there is hit
by `.unwrap()`). -/
inductive ExecOutcome where
  | success
  | failure
deriving DecidableEq, Repr

/-- Outcome of `then_signal_fence_and_flush`: success, the distinguished
`FlushError::OutOfDate`, or any other `FlushError`. -/
inductive FlushOutcome where
  | success
  | outOfDate
  | failure
deriving DecidableEq, Repr

/-- The Rust panics reachable from `draw_frame`, by site. -/
inductive PanicReason where
  | prevFrameEndNone
  | swapchainBuild
  | acquireError
  | commandBufferIndex
  | execError
deriving DecidableEq, Repr

/-- A completed (non-panicking) `draw_frame` iteration: the state it
leaves behind, whether a command buffer was submitted (and a present
chained) this iteration, and whether an unexpected flush error was
printed. -/
structure DrawOk where
  state : AppState
  submitted : Bool
  logged : Bool
deriving DecidableEq, Repr

/-- Result of one `draw_frame` call: a panic at a specific site, or a
completed iteration. -/
inductive DrawResult where
  | panicked (reason : PanicReason)
  | ok (r : DrawOk)
deriving DecidableEq, Repr

/-- Embedding of `main.rs::GraphicsApplication::draw_frame`, one loop-body iteration.
The environment's responses (surface capabilities and driver images for a
possible recreation, and the acquire / execute / flush outcomes) are
inputs.  Faithful to the source order: unwrap `previous_frame_end` for
`cleanup_finished`, run `recreate_swap_chain`, acquire (out-of-date sets
the flag and returns early; any other error panics), index
`command_buffers` (panics out of bounds), `take()` the previous-frame
future, execute (an error panics via `unwrap`), then match the flush
result: success stores the new fence future, out-of-date sets the flag and
resets to `sync::now`, anything else prints the error and resets to
`sync::now`. -/
def GraphicsApplication.draw_frame (s : AppState)
    (capabilities : Capabilities)
    (graphics_queue_id presentation_queue_id : Nat)
    (driver_images : List Nat) (build_ok : Bool)
    (acquire : AcquireOutcome) (execute : ExecOutcome) (flush : FlushOutcome) :
    DrawResult :=
  match s.previous_frame_end with
  | none => DrawResult.panicked PanicReason.prevFrameEndNone
  | some _ =>
    match GraphicsApplication.recreate_swap_chain s capabilities
        graphics_queue_id presentation_queue_id driver_images build_ok with
    | none => DrawResult.panicked PanicReason.swapchainBuild
    | some s =>
      match acquire with
      | AcquireOutcome.outOfDate =>
          DrawResult.ok { state := { s with recreate_swap_chain := true }
                          submitted := false
                          logged := false }
      | AcquireOutcome.failure => DrawResult.panicked PanicReason.acquireError
      | AcquireOutcome.success image_index =>
          if image_index < s.command_buffers.length then
            match s.previous_frame_end with
            | none => DrawResult.panicked PanicReason.prevFrameEndNone
            | some _ =>
              let s := { s with previous_frame_end := none }
              match execute with
              | ExecOutcome.failure => DrawResult.panicked PanicReason.execError
              | ExecOutcome.success =>
                match flush with
                | FlushOutcome.success =>
                    DrawResult.ok
                      { state := { s with
                          previous_frame_end := some (GpuFut.chained image_index) }
                        submitted := true
                        logged := false }
                | FlushOutcome.outOfDate =>
                    DrawResult.ok
                      { state := { s with
                          recreate_swap_chain := true
                          previous_frame_end := some GpuFut.now }
                        submitted := true
                        logged := false }
                | FlushOutcome.failure =>
                    DrawResult.ok
                      { state := { s with previous_frame_end := some GpuFut.now }
                        submitted := true
                        logged := true }
          else
            DrawResult.panicked PanicReason.commandBufferIndex

/-! Concrete fixtures used to evaluate the swapchain-recreation path. -/

/-- Surface capabilities at startup: the preferred format is offered,
only FIFO is supported, and the surface reports current extent
`(800, 600)`. -/
def initial_capabilities : Capabilities :=
  { supported_formats := [(Format.B8G8R8A8Unorm, ColorSpace.SrgbNonLinear)]
    present_modes := { immediate := false, mailbox := false, fifo := true,
                       relaxed := false }
    min_image_count := 2
    max_image_count := none
    current_extent := some (800, 600)
    min_image_extent := (1, 1)
    max_image_extent := (4096, 4096)
    current_transform := 0 }

/-- Surface capabilities as reported after the window was resized: mailbox
has become available and the surface now reports current extent
`(1024, 768)`. -/
def recreation_capabilities : Capabilities :=
  { supported_formats := [(Format.B8G8R8A8Unorm, ColorSpace.SrgbNonLinear)]
    present_modes := { immediate := true, mailbox := true, fifo := true,
                       relaxed := false }
    min_image_count := 2
    max_image_count := none
    current_extent := some (1024, 768)
    min_image_extent := (1, 1)
    max_image_extent := (4096, 4096)
    current_transform := 0 }

/-- A swapchain that was built earlier, when the surface had different
properties than `recreation_capabilities` reports now. -/
def stale_swap_chain : SwapchainParams :=
  { num_images := 3
    sharing := SharingMode.exclusive 0
    dimensions := (800, 600)
    present_mode := PresentMode.Fifo
    format := Format.other 44
    color_space := ColorSpace.other 9
    transform := 0 }

/-- The state `recreate_swap_chain_framebuffer_count_witness` starts
from: stale parameters, three images, and the recreate flag set. -/
def flagged_state : AppState :=
  { swap_chain := stale_swap_chain
    swap_chain_images := [0, 1, 2]
    framebuffers := [0, 1, 2]
    command_buffers := [0, 1, 2]
    previous_frame_end := some GpuFut.now
    recreate_swap_chain := true }

/-- A steady application state between frames: matching per-image
resources, an already-signaled previous-frame future, recreate flag
clear. -/
def steady_state : AppState :=
  { swap_chain := stale_swap_chain
    swap_chain_images := [0, 1, 2]
    framebuffers := [0, 1, 2]
    command_buffers := [0, 1, 2]
    previous_frame_end := some GpuFut.now
    recreate_swap_chain := false }

/-- The iteration result when acquire reports out-of-date at
`steady_state`. -/
def after_acquire_ood : DrawOk :=
  { state := { steady_state with recreate_swap_chain := true }
    submitted := false
    logged := false }

/-- The iteration result when the flush reports out-of-date after a
successful submit at `steady_state` (image index 0). -/
def after_present_ood : DrawOk :=
  { state := { steady_state with
               recreate_swap_chain := true
               previous_frame_end := some GpuFut.now }
    submitted := true
    logged := false }

/-- The iteration result when the flush fails with an unexpected error at
`steady_state` (image index 0): the error is printed and the previous
frame future reset, which leaves `steady_state` itself. -/
def after_flush_error : DrawOk :=
  { state := steady_state
    submitted := true
    logged := true }


/-! Helper lemmas on the surface-format scan. -/

/-- The scan predicate of `choose_swap_surface_format` holds exactly at the
preferred pair. -/
theorem surface_format_pred_iff (p : Format × ColorSpace) :
    ((decide (p.1 = Format.B8G8R8A8Unorm) && decide (p.2 = ColorSpace.SrgbNonLinear)) = true) ↔
      p = (Format.B8G8R8A8Unorm, ColorSpace.SrgbNonLinear) := by
  rcases p with ⟨f, c⟩
  simp [Prod.ext_iff]

theorem surface_format_find_mem (l : List (Format × ColorSpace))
    (h : (Format.B8G8R8A8Unorm, ColorSpace.SrgbNonLinear) ∈ l) :
    (l.find? fun p =>
        decide (p.1 = Format.B8G8R8A8Unorm) && decide (p.2 = ColorSpace.SrgbNonLinear)) =
      some (Format.B8G8R8A8Unorm, ColorSpace.SrgbNonLinear) := by
  induction l with
  | nil => cases h
  | cons a t ih =>
    by_cases ha : a = (Format.B8G8R8A8Unorm, ColorSpace.SrgbNonLinear)
    · subst ha
      rw [List.find?_cons_of_pos]
      exact (surface_format_pred_iff _).mpr rfl
    · rw [List.find?_cons_of_neg]
      · exact ih (by
          rcases List.mem_cons.mp h with h1 | h1
          · exact absurd h1.symm ha
          · exact h1)
      · simp only [Bool.not_eq_true]
        exact Bool.not_eq_true _ ▸ fun hc => ha ((surface_format_pred_iff _).mp hc)

theorem surface_format_find_not_mem (l : List (Format × ColorSpace))
    (h : (Format.B8G8R8A8Unorm, ColorSpace.SrgbNonLinear) ∉ l) :
    (l.find? fun p =>
        decide (p.1 = Format.B8G8R8A8Unorm) && decide (p.2 = ColorSpace.SrgbNonLinear)) =
      none := by
  induction l with
  | nil => rfl
  | cons a t ih =>
    rw [List.find?_cons_of_neg]
    · exact ih fun hm => h (List.mem_cons_of_mem a hm)
    · intro hc
      exact h ((surface_format_pred_iff a).mp hc ▸ List.mem_cons_self a t)

/-- C7: for every list of supported (format, color-space) pairs that
contains `(B8G8R8A8Unorm, SrgbNonLinear)`, `choose_swap_surface_format`
returns exactly that pair; for every non-empty list not containing it, it
returns the first listed pair. -/
theorem choose_swap_surface_format_spec (l : List (Format × ColorSpace)) :
    ((Format.B8G8R8A8Unorm, ColorSpace.SrgbNonLinear) ∈ l →
      choose_swap_surface_format l =
        some (Format.B8G8R8A8Unorm, ColorSpace.SrgbNonLinear)) ∧
    (l ≠ [] → (Format.B8G8R8A8Unorm, ColorSpace.SrgbNonLinear) ∉ l →
      choose_swap_surface_format l = l.head?) := by
  constructor
  · intro h
    unfold choose_swap_surface_format
    rw [surface_format_find_mem l h]
    rfl
  · intro _ h
    unfold choose_swap_surface_format
    rw [surface_format_find_not_mem l h]
    rfl

/-- Witness for C7 at two concrete format lists: one containing the
preferred pair (not in first position), one without it. -/
theorem choose_swap_surface_format_spec_witness :
    choose_swap_surface_format
        [(Format.other 7, ColorSpace.SrgbNonLinear),
         (Format.B8G8R8A8Unorm, ColorSpace.SrgbNonLinear)] =
      some (Format.B8G8R8A8Unorm, ColorSpace.SrgbNonLinear) ∧
    choose_swap_surface_format [(Format.other 7, ColorSpace.other 3)] =
      some (Format.other 7, ColorSpace.other 3) := by
  constructor
  · exact (choose_swap_surface_format_spec _).1 (by decide)
  · exact ((choose_swap_surface_format_spec
      [(Format.other 7, ColorSpace.other 3)]).2 (by decide) (by decide)).trans rfl

/-- C8: `choose_swap_present_mode` returns Mailbox when mailbox is
supported, otherwise Immediate when immediate is supported, otherwise
Fifo, for every combination of supported present modes. -/
theorem choose_swap_present_mode_spec (m : SupportedPresentModes) :
    (m.mailbox = true → choose_swap_present_mode m = PresentMode.Mailbox) ∧
    (m.mailbox = false → m.immediate = true →
      choose_swap_present_mode m = PresentMode.Immediate) ∧
    (m.mailbox = false → m.immediate = false →
      choose_swap_present_mode m = PresentMode.Fifo) := by
  rcases m with ⟨i, mb, f, r⟩
  cases mb <;> cases i <;> simp [choose_swap_present_mode]

/-- Witness for C8 at three concrete support combinations. -/
theorem choose_swap_present_mode_spec_witness :
    choose_swap_present_mode
        { immediate := true, mailbox := true, fifo := true, relaxed := false } =
      PresentMode.Mailbox ∧
    choose_swap_present_mode
        { immediate := true, mailbox := false, fifo := true, relaxed := false } =
      PresentMode.Immediate ∧
    choose_swap_present_mode
        { immediate := false, mailbox := false, fifo := true, relaxed := false } =
      PresentMode.Fifo :=
  ⟨(choose_swap_present_mode_spec _).1 rfl,
   (choose_swap_present_mode_spec _).2.1 rfl rfl,
   (choose_swap_present_mode_spec _).2.2 rfl rfl⟩

/-- C4: when the surface reports a current extent, `choose_swap_extent`
returns it unchanged; when it reports none, each component of the result
is the desired size clamped into `[min_image_extent, max_image_extent]`
(characterised by interval membership together with the three clamp
cases); and the concrete scenario (no current extent, min `[640, 480]`,
max `[1920, 1080]`, desired `(1024, 768)`) yields `[1024, 768]`. -/
theorem choose_swap_extent_spec (capabilities : Capabilities) (dw dh : Nat) :
    (∀ e, capabilities.current_extent = some e →
      choose_swap_extent capabilities dw dh = e) ∧
    (capabilities.current_extent = none →
      (capabilities.min_image_extent.1 ≤ capabilities.max_image_extent.1 →
        capabilities.min_image_extent.1 ≤ (choose_swap_extent capabilities dw dh).1 ∧
        (choose_swap_extent capabilities dw dh).1 ≤ capabilities.max_image_extent.1 ∧
        (capabilities.min_image_extent.1 ≤ dw → dw ≤ capabilities.max_image_extent.1 →
          (choose_swap_extent capabilities dw dh).1 = dw) ∧
        (dw < capabilities.min_image_extent.1 →
          (choose_swap_extent capabilities dw dh).1 = capabilities.min_image_extent.1) ∧
        (capabilities.max_image_extent.1 < dw →
          (choose_swap_extent capabilities dw dh).1 = capabilities.max_image_extent.1)) ∧
      (capabilities.min_image_extent.2 ≤ capabilities.max_image_extent.2 →
        capabilities.min_image_extent.2 ≤ (choose_swap_extent capabilities dw dh).2 ∧
        (choose_swap_extent capabilities dw dh).2 ≤ capabilities.max_image_extent.2 ∧
        (capabilities.min_image_extent.2 ≤ dh → dh ≤ capabilities.max_image_extent.2 →
          (choose_swap_extent capabilities dw dh).2 = dh) ∧
        (dh < capabilities.min_image_extent.2 →
          (choose_swap_extent capabilities dw dh).2 = capabilities.min_image_extent.2) ∧
        (capabilities.max_image_extent.2 < dh →
          (choose_swap_extent capabilities dw dh).2 = capabilities.max_image_extent.2))) ∧
    choose_swap_extent
        { supported_formats := []
          present_modes := { immediate := false, mailbox := false, fifo := true,
                             relaxed := false }
          min_image_count := 2
          max_image_count := none
          current_extent := none
          min_image_extent := (640, 480)
          max_image_extent := (1920, 1080)
          current_transform := 0 } 1024 768 = (1024, 768) := by
  refine ⟨?_, ?_, by decide⟩
  · intro e he
    simp [choose_swap_extent, he]
  · intro hnone
    simp only [choose_swap_extent, hnone]
    constructor
    · intro hle
      refine ⟨?_, ?_, ?_, ?_, ?_⟩ <;> intros <;>
        simp only [Nat.max_def, Nat.min_def] <;> split_ifs <;> omega
    · intro hle
      refine ⟨?_, ?_, ?_, ?_, ?_⟩ <;> intros <;>
        simp only [Nat.max_def, Nat.min_def] <;> split_ifs <;> omega

/-- Witness for C4: a capability set with a defined current extent and one
without, both evaluated concretely. -/
theorem choose_swap_extent_spec_witness :
    choose_swap_extent
        { supported_formats := []
          present_modes := { immediate := false, mailbox := false, fifo := true,
                             relaxed := false }
          min_image_count := 2
          max_image_count := none
          current_extent := some (1234, 777)
          min_image_extent := (1, 1)
          max_image_extent := (4096, 4096)
          current_transform := 0 } 1024 768 = (1234, 777) ∧
    (choose_swap_extent
        { supported_formats := []
          present_modes := { immediate := false, mailbox := false, fifo := true,
                             relaxed := false }
          min_image_count := 2
          max_image_count := none
          current_extent := none
          min_image_extent := (640, 480)
          max_image_extent := (1920, 1080)
          current_transform := 0 } 100 768).1 = 640 := by
  constructor
  · exact (choose_swap_extent_spec _ 1024 768).1 _ rfl
  · exact (((choose_swap_extent_spec _ 100 768).2.1 rfl).1 (by decide)).2.2.2.1 (by decide)

/-- C1 fails on the code: a call to `create_swap_chain` that is passed an
existing swapchain handle returns that swapchain's own parameters
unchanged (`recreate()` path), even though the selection algorithm applied
to the current capabilities would pick a different extent, format and
present mode.  Evaluated at the concrete recreation capabilities and the
stale swapchain. -/
theorem create_swap_chain_recreate_skips_selection :
    create_swap_chain recreation_capabilities 0 0 (some stale_swap_chain) true =
      some stale_swap_chain ∧
    choose_swap_extent recreation_capabilities 1024 768 = (1024, 768) ∧
    stale_swap_chain.dimensions ≠ (1024, 768) ∧
    choose_swap_surface_format recreation_capabilities.supported_formats =
      some (Format.B8G8R8A8Unorm, ColorSpace.SrgbNonLinear) ∧
    stale_swap_chain.format ≠ Format.B8G8R8A8Unorm ∧
    choose_swap_present_mode recreation_capabilities.present_modes =
      PresentMode.Mailbox ∧
    stale_swap_chain.present_mode ≠ PresentMode.Mailbox := by
  decide

/-- C2 fails on the code: starting from the constructed application with
driver images `[0, 1, 2]`, setting the recreate flag and running the
recreation step with new driver images `[3, 4, 5]` rebuilds the
framebuffers against the new images but leaves the command buffers
recorded against the old images — `create_command_buffers` has an empty
body — so no command buffer references any image of the new swapchain. -/
theorem recreate_swap_chain_keeps_stale_command_buffers :
    ((GraphicsApplication.new initial_capabilities 0 0 [0, 1, 2] true).bind fun s0 =>
        GraphicsApplication.recreate_swap_chain { s0 with recreate_swap_chain := true }
          recreation_capabilities 0 0 [3, 4, 5] true) =
      some { swap_chain :=
               { num_images := 3
                 sharing := SharingMode.exclusive 0
                 dimensions := (800, 600)
                 present_mode := PresentMode.Fifo
                 format := Format.B8G8R8A8Unorm
                 color_space := ColorSpace.SrgbNonLinear
                 transform := 0 }
             swap_chain_images := [3, 4, 5]
             framebuffers := [3, 4, 5]
             command_buffers := [0, 1, 2]
             previous_frame_end := some GpuFut.now
             recreate_swap_chain := false } ∧
    (([0, 1, 2] : List Nat).any fun cb => ([3, 4, 5] : List Nat).contains cb) = false := by
  decide

/-- The recreation step never touches `previous_frame_end`. -/
theorem recreate_swap_chain_preserves_previous_frame_end (s : AppState)
    (capabilities : Capabilities) (gq pq : Nat) (driver_images : List Nat)
    (build_ok : Bool) (s' : AppState)
    (h : GraphicsApplication.recreate_swap_chain s capabilities gq pq driver_images
        build_ok = some s') :
    s'.previous_frame_end = s.previous_frame_end := by
  unfold GraphicsApplication.recreate_swap_chain at h
  by_cases hf : s.recreate_swap_chain = true
  · rw [if_pos hf] at h
    cases hb : create_swap_chain capabilities gq pq (some s.swap_chain) build_ok with
    | none => rw [hb] at h; cases h
    | some sc =>
        rw [hb] at h
        simp only [GraphicsApplication.create_command_buffers, Option.some.injEq] at h
        rw [← h]
  · rw [if_neg hf] at h
    cases h
    rfl

/-- The recreation step never touches `command_buffers`
(`create_command_buffers` has an empty body). -/
theorem recreate_swap_chain_preserves_command_buffers (s : AppState)
    (capabilities : Capabilities) (gq pq : Nat) (driver_images : List Nat)
    (build_ok : Bool) (s' : AppState)
    (h : GraphicsApplication.recreate_swap_chain s capabilities gq pq driver_images
        build_ok = some s') :
    s'.command_buffers = s.command_buffers := by
  unfold GraphicsApplication.recreate_swap_chain at h
  by_cases hf : s.recreate_swap_chain = true
  · rw [if_pos hf] at h
    cases hb : create_swap_chain capabilities gq pq (some s.swap_chain) build_ok with
    | none => rw [hb] at h; cases h
    | some sc =>
        rw [hb] at h
        simp only [GraphicsApplication.create_command_buffers, Option.some.injEq] at h
        rw [← h]
  · rw [if_neg hf] at h
    cases h
    rfl

/-- C9: whenever the recreation step completes, the number of
framebuffers equals the current swapchain's image count — unconditionally
when the recreate flag was set (an actual recreation ran), and otherwise
whenever the counts already agreed before the step. -/
theorem recreate_swap_chain_framebuffer_count (s : AppState)
    (capabilities : Capabilities) (gq pq : Nat) (driver_images : List Nat)
    (build_ok : Bool) (s' : AppState)
    (h : GraphicsApplication.recreate_swap_chain s capabilities gq pq driver_images
        build_ok = some s') :
    (s.recreate_swap_chain = true →
      s'.framebuffers.length = s'.swap_chain_images.length) ∧
    (s.framebuffers.length = s.swap_chain_images.length →
      s'.framebuffers.length = s'.swap_chain_images.length) := by
  unfold GraphicsApplication.recreate_swap_chain at h
  by_cases hf : s.recreate_swap_chain = true
  · rw [if_pos hf] at h
    cases hb : create_swap_chain capabilities gq pq (some s.swap_chain) build_ok with
    | none => rw [hb] at h; cases h
    | some sc =>
        rw [hb] at h
        simp only [GraphicsApplication.create_command_buffers, Option.some.injEq] at h
        constructor <;> intro _ <;>
          simp [← h, create_framebuffers]
  · rw [if_neg hf] at h
    cases h
    exact ⟨fun hc => absurd hc hf, fun he => he⟩

/-- Witness for C9: one concrete recreation (driver hands back two new
images) after which the framebuffer count equals the image count. -/
theorem recreate_swap_chain_framebuffer_count_witness :
    (AppState.framebuffers
        { swap_chain := stale_swap_chain
          swap_chain_images := [10, 11]
          framebuffers := [10, 11]
          command_buffers := [0, 1, 2]
          previous_frame_end := some GpuFut.now
          recreate_swap_chain := false }).length =
      (AppState.swap_chain_images
        { swap_chain := stale_swap_chain
          swap_chain_images := [10, 11]
          framebuffers := [10, 11]
          command_buffers := [0, 1, 2]
          previous_frame_end := some GpuFut.now
          recreate_swap_chain := false }).length :=
  (recreate_swap_chain_framebuffer_count flagged_state recreation_capabilities 0 0
      [10, 11] true _ (by decide)).1 rfl

/-- C5: in every loop iteration whose acquire call reports the surface as
out of date and that completes (does not panic), no command buffer is
submitted and no present is requested, and the returned state has the
recreate flag set. -/
theorem draw_frame_acquire_out_of_date (s : AppState) (capabilities : Capabilities)
    (gq pq : Nat) (driver_images : List Nat) (build_ok : Bool)
    (execute : ExecOutcome) (flush : FlushOutcome) (r : DrawOk)
    (h : GraphicsApplication.draw_frame s capabilities gq pq driver_images build_ok
        AcquireOutcome.outOfDate execute flush = DrawResult.ok r) :
    r.submitted = false ∧ r.state.recreate_swap_chain = true := by
  unfold GraphicsApplication.draw_frame at h
  cases hp : s.previous_frame_end with
  | none => rw [hp] at h; cases h
  | some f =>
    rw [hp] at h
    cases hr : GraphicsApplication.recreate_swap_chain s capabilities gq pq
        driver_images build_ok with
    | none => rw [hr] at h; cases h
    | some s2 =>
      rw [hr] at h
      simp only [DrawResult.ok.injEq] at h
      rw [← h]
      exact ⟨rfl, rfl⟩

/-- Witness for C5: a concrete out-of-date acquire at `steady_state`. -/
theorem draw_frame_acquire_out_of_date_witness :
    after_acquire_ood.submitted = false ∧
    after_acquire_ood.state.recreate_swap_chain = true :=
  draw_frame_acquire_out_of_date steady_state recreation_capabilities 0 0 [] true
    ExecOutcome.success FlushOutcome.success after_acquire_ood (by decide)

/-- C6: in every completing loop iteration where acquire succeeds, the
command buffer executes, and the fence-and-flush reports out-of-date, the
returned state has the recreate flag set and `previous_frame_end` reset to
the already-signaled `sync::now` placeholder (not the failed future). -/
theorem draw_frame_present_out_of_date (s : AppState) (capabilities : Capabilities)
    (gq pq : Nat) (driver_images : List Nat) (build_ok : Bool) (image_index : Nat)
    (r : DrawOk)
    (h : GraphicsApplication.draw_frame s capabilities gq pq driver_images build_ok
        (AcquireOutcome.success image_index) ExecOutcome.success
        FlushOutcome.outOfDate = DrawResult.ok r) :
    r.submitted = true ∧ r.state.recreate_swap_chain = true ∧
    r.state.previous_frame_end = some GpuFut.now := by
  unfold GraphicsApplication.draw_frame at h
  cases hp : s.previous_frame_end with
  | none => rw [hp] at h; cases h
  | some f =>
    rw [hp] at h
    cases hr : GraphicsApplication.recreate_swap_chain s capabilities gq pq
        driver_images build_ok with
    | none => rw [hr] at h; cases h
    | some s2 =>
      rw [hr] at h
      by_cases hlt : image_index < s2.command_buffers.length
      · simp only [if_pos hlt] at h
        cases hp2 : s2.previous_frame_end with
        | none => rw [hp2] at h; cases h
        | some f2 =>
          rw [hp2] at h
          simp only [DrawResult.ok.injEq] at h
          rw [← h]
          exact ⟨rfl, rfl, rfl⟩
      · simp only [if_neg hlt] at h
        cases h

/-- Witness for C6: a concrete out-of-date flush at `steady_state`. -/
theorem draw_frame_present_out_of_date_witness :
    after_present_ood.submitted = true ∧
    after_present_ood.state.recreate_swap_chain = true ∧
    after_present_ood.state.previous_frame_end = some GpuFut.now :=
  draw_frame_present_out_of_date steady_state recreation_capabilities 0 0 [] true 0
    after_present_ood (by decide)

/-- C3 fails on the code: at a concrete steady state, an acquire error
other than out-of-date hits `panic!` in `draw_frame`, aborting the process
instead of being logged and downgraded. -/
theorem draw_frame_acquire_error_aborts :
    GraphicsApplication.draw_frame steady_state recreation_capabilities 0 0 [] true
        AcquireOutcome.failure ExecOutcome.success FlushOutcome.success =
      DrawResult.panicked PanicReason.acquireError := by
  decide

/-- C3 (amended): an error other than out-of-date at the fence-and-flush
of the submit/present chain is logged and `previous_frame_end` is reset to
the already-signaled placeholder, and the iteration completes; but an
acquire error other than out-of-date makes the loop body panic (it only
ever panics at a named panic site, the swapchain build included). -/
theorem draw_frame_unexpected_flush_error (s : AppState)
    (capabilities : Capabilities) (gq pq : Nat) (driver_images : List Nat)
    (build_ok : Bool) (image_index : Nat) :
    (∀ r, GraphicsApplication.draw_frame s capabilities gq pq driver_images build_ok
        (AcquireOutcome.success image_index) ExecOutcome.success
        FlushOutcome.failure = DrawResult.ok r →
      r.logged = true ∧ r.state.previous_frame_end = some GpuFut.now) ∧
    (s.previous_frame_end.isSome = true →
      ∀ execute flush,
        GraphicsApplication.draw_frame s capabilities gq pq driver_images build_ok
            AcquireOutcome.failure execute flush =
          DrawResult.panicked PanicReason.acquireError ∨
        GraphicsApplication.draw_frame s capabilities gq pq driver_images build_ok
            AcquireOutcome.failure execute flush =
          DrawResult.panicked PanicReason.swapchainBuild) := by
  constructor
  · intro r h
    unfold GraphicsApplication.draw_frame at h
    cases hp : s.previous_frame_end with
    | none => rw [hp] at h; cases h
    | some f =>
      rw [hp] at h
      cases hr : GraphicsApplication.recreate_swap_chain s capabilities gq pq
          driver_images build_ok with
      | none => rw [hr] at h; cases h
      | some s2 =>
        rw [hr] at h
        by_cases hlt : image_index < s2.command_buffers.length
        · simp only [if_pos hlt] at h
          cases hp2 : s2.previous_frame_end with
          | none => rw [hp2] at h; cases h
          | some f2 =>
            rw [hp2] at h
            simp only [DrawResult.ok.injEq] at h
            rw [← h]
            exact ⟨rfl, rfl⟩
        · simp only [if_neg hlt] at h
          cases h
  · intro hs execute flush
    cases hp : s.previous_frame_end with
    | none => rw [hp] at hs; cases hs
    | some f =>
      cases hr : GraphicsApplication.recreate_swap_chain s capabilities gq pq
          driver_images build_ok with
      | none =>
          right
          unfold GraphicsApplication.draw_frame
          rw [hp, hr]
      | some s2 =>
          left
          unfold GraphicsApplication.draw_frame
          rw [hp, hr]

/-- Witness for C3 (amended): a concrete unexpected flush error at
`steady_state`. -/
theorem draw_frame_unexpected_flush_error_witness :
    after_flush_error.logged = true ∧
    after_flush_error.state.previous_frame_end = some GpuFut.now :=
  (draw_frame_unexpected_flush_error steady_state recreation_capabilities 0 0 []
      true 0).1 after_flush_error (by decide)

/-- C10: `previous_frame_end` is `some` straight out of the constructor;
and whenever it is `some` at the start of `draw_frame`, the unwraps on it
cannot fire (the `prevFrameEndNone` panic is unreachable) and every
completing iteration leaves it `some` again. -/
theorem previous_frame_end_always_some (capabilities : Capabilities)
    (gq pq : Nat) (driver_images : List Nat) (build_ok : Bool) :
    (∀ s0, GraphicsApplication.new capabilities gq pq driver_images build_ok =
        some s0 → s0.previous_frame_end.isSome = true) ∧
    (∀ s acquire execute flush,
      s.previous_frame_end.isSome = true →
      GraphicsApplication.draw_frame s capabilities gq pq driver_images build_ok
          acquire execute flush ≠
        DrawResult.panicked PanicReason.prevFrameEndNone ∧
      ∀ r, GraphicsApplication.draw_frame s capabilities gq pq driver_images build_ok
          acquire execute flush = DrawResult.ok r →
        r.state.previous_frame_end.isSome = true) := by
  constructor
  · intro s0 h
    unfold GraphicsApplication.new at h
    cases hc : create_swap_chain capabilities gq pq none build_ok with
    | none => rw [hc] at h; cases h
    | some sc =>
        rw [hc] at h
        simp only [Option.some.injEq] at h
        rw [← h]
        rfl
  · intro s acquire execute flush hs
    cases hp : s.previous_frame_end with
    | none => rw [hp] at hs; cases hs
    | some f =>
      cases hr : GraphicsApplication.recreate_swap_chain s capabilities gq pq
          driver_images build_ok with
      | none =>
          have hd : GraphicsApplication.draw_frame s capabilities gq pq driver_images
              build_ok acquire execute flush =
                DrawResult.panicked PanicReason.swapchainBuild := by
            unfold GraphicsApplication.draw_frame
            rw [hp, hr]
          rw [hd]
          exact ⟨by decide, fun r hr2 => by cases hr2⟩
      | some s2 =>
          have hp2 : s2.previous_frame_end = some f :=
            (recreate_swap_chain_preserves_previous_frame_end s capabilities gq pq
              driver_images build_ok s2 hr).trans hp
          cases acquire with
          | outOfDate =>
              have hd : GraphicsApplication.draw_frame s capabilities gq pq
                  driver_images build_ok AcquireOutcome.outOfDate execute flush =
                    DrawResult.ok { state := { s2 with recreate_swap_chain := true }
                                    submitted := false
                                    logged := false } := by
                unfold GraphicsApplication.draw_frame
                rw [hp, hr]
              rw [hd]
              refine ⟨fun hcon => DrawResult.noConfusion hcon, ?_⟩
              intro r hr2
              simp only [DrawResult.ok.injEq] at hr2
              rw [← hr2]
              simp [hp2]
          | failure =>
              have hd : GraphicsApplication.draw_frame s capabilities gq pq
                  driver_images build_ok AcquireOutcome.failure execute flush =
                    DrawResult.panicked PanicReason.acquireError := by
                unfold GraphicsApplication.draw_frame
                rw [hp, hr]
              rw [hd]
              exact ⟨by decide, fun r hr2 => by cases hr2⟩
          | success image_index =>
              by_cases hlt : image_index < s2.command_buffers.length
              · cases execute with
                | failure =>
                    have hd : GraphicsApplication.draw_frame s capabilities gq pq
                        driver_images build_ok (AcquireOutcome.success image_index)
                        ExecOutcome.failure flush =
                          DrawResult.panicked PanicReason.execError := by
                      unfold GraphicsApplication.draw_frame
                      rw [hp, hr]
                      simp only [if_pos hlt, hp2]
                    rw [hd]
                    exact ⟨by decide, fun r hr2 => by cases hr2⟩
                | success =>
                    cases flush with
                    | success =>
                        have hd : GraphicsApplication.draw_frame s capabilities gq pq
                            driver_images build_ok
                            (AcquireOutcome.success image_index)
                            ExecOutcome.success FlushOutcome.success =
                              DrawResult.ok
                                { state := { s2 with previous_frame_end := some (GpuFut.chained image_index) },
                                  submitted := true, logged := false } := by
                          unfold GraphicsApplication.draw_frame
                          rw [hp, hr]
                          simp only [if_pos hlt, hp2]
                        rw [hd]
                        refine ⟨fun hcon => DrawResult.noConfusion hcon, ?_⟩
                        intro r hr2
                        simp only [DrawResult.ok.injEq] at hr2
                        rw [← hr2]
                        rfl
                    | outOfDate =>
                        have hd : GraphicsApplication.draw_frame s capabilities gq pq
                            driver_images build_ok
                            (AcquireOutcome.success image_index)
                            ExecOutcome.success FlushOutcome.outOfDate =
                              DrawResult.ok
                                { state :=
                                    { s2 with
                                        recreate_swap_chain := true,
                                        previous_frame_end := some GpuFut.now },
                                  submitted := true, logged := false } := by
                          unfold GraphicsApplication.draw_frame
                          rw [hp, hr]
                          simp only [if_pos hlt, hp2]
                        rw [hd]
                        refine ⟨fun hcon => DrawResult.noConfusion hcon, ?_⟩
                        intro r hr2
                        simp only [DrawResult.ok.injEq] at hr2
                        rw [← hr2]
                        rfl
                    | failure =>
                        have hd : GraphicsApplication.draw_frame s capabilities gq pq
                            driver_images build_ok
                            (AcquireOutcome.success image_index)
                            ExecOutcome.success FlushOutcome.failure =
                              DrawResult.ok
                                { state := { s2 with previous_frame_end := some GpuFut.now },
                                  submitted := true, logged := true } := by
                          unfold GraphicsApplication.draw_frame
                          rw [hp, hr]
                          simp only [if_pos hlt, hp2]
                        rw [hd]
                        refine ⟨fun hcon => DrawResult.noConfusion hcon, ?_⟩
                        intro r hr2
                        simp only [DrawResult.ok.injEq] at hr2
                        rw [← hr2]
                        rfl
              · have hd : GraphicsApplication.draw_frame s capabilities gq pq
                    driver_images build_ok (AcquireOutcome.success image_index)
                    execute flush =
                      DrawResult.panicked PanicReason.commandBufferIndex := by
                  unfold GraphicsApplication.draw_frame
                  rw [hp, hr]
                  simp only [if_neg hlt]
                rw [hd]
                exact ⟨by decide, fun r hr2 => by cases hr2⟩

/-- Witness for C10: at `steady_state` (whose previous-frame future is the
placeholder) a concrete iteration neither hits the `previous_frame_end`
unwrap panic nor ends with `previous_frame_end` empty. -/
theorem previous_frame_end_always_some_witness :
    (GraphicsApplication.draw_frame steady_state recreation_capabilities 0 0 [] true
        AcquireOutcome.outOfDate ExecOutcome.success FlushOutcome.success ≠
      DrawResult.panicked PanicReason.prevFrameEndNone) ∧
    after_acquire_ood.state.previous_frame_end.isSome = true :=
  ⟨((previous_frame_end_always_some recreation_capabilities 0 0 [] true).2
      steady_state AcquireOutcome.outOfDate ExecOutcome.success FlushOutcome.success
      (by decide)).1,
   ((previous_frame_end_always_some recreation_capabilities 0 0 [] true).2
      steady_state AcquireOutcome.outOfDate ExecOutcome.success FlushOutcome.success
      (by decide)).2 after_acquire_ood (by decide)⟩

end VulkanTutorial
